import Mathlib

-- ===========================================================================
-- Shallow embedding of src/app.py (Pluvio_estimate).
--
-- Numeric model: real-arithmetic semantics over ℚ.  A Python float NaN
-- produced by griddata's fill_value (the "out of coverage" marker) is
-- modelled as `none : Option ℚ`; a Python `None` return is modelled as
-- `none` at the outer `Option` layer; an uncaught Python exception is
-- modelled as `Except.error`.
--
-- scipy.interpolate.griddata (method='linear') is external library code;
-- it is embedded by its documented semantics: build a Delaunay
-- triangulation of the station coordinates (raising QhullError when there
-- are fewer than 3 points or all points are collinear), then evaluate
-- piecewise-linear barycentric interpolation in a triangle containing the
-- query point, with NaN outside the convex hull.  Every input point is a
-- vertex of the triangulation, so evaluation at a data point returns that
-- point's value (for duplicated coordinates, the first occurrence's value).
-- The choice of triangle for non-vertex query points is triangulation
-- dependent; the embedding uses the first non-degenerate containing
-- triangle, which realises the same piecewise-linear-over-a-triangulation
-- semantics.  No claim verified below depends on the triangle choice.
-- ===========================================================================

-- Configuration constants (src/app.py lines 20-25).
def COL_LAT : String := "Latitude"

def COL_LON : String := "Longitude"

def COL_PLUVIO_MOYENNE : String := "PLUVIOMETRIE moyenne des 17 fichiers"

def COL_PLUVIO_EXCEP : String := "PLUVIO EXCEPTIONNELLE moyenne des 17 fichiers"

-- The subset passed to dropna (src/app.py line 61); identical to the
-- cleaning list of line 50 up to order.
def requiredCols : List String := [COL_LAT, COL_LON, COL_PLUVIO_MOYENNE, COL_PLUVIO_EXCEP]

-- ---------------------------------------------------------------------------
-- Dataset loader (src/app.py lines 34-62, load_data).
-- ---------------------------------------------------------------------------

-- The apostrophe character stripped by .str.strip(" '").
def quoteChar : Char := Char.ofNat 39

def isStripChar (c : Char) : Bool := (c == ' ') || (c == quoteChar)

-- Python str.strip(" '"): drop the characters of the set from both ends.
def stripStray (s : String) : String :=
  String.mk (((s.toList.dropWhile isStripChar).reverse.dropWhile isStripChar).reverse)

-- .str.replace(',', '.') with regex disabled: literal character replacement.
def commaToDot (s : String) : String :=
  String.mk (s.toList.map (fun c => if c == ',' then '.' else c))

def digitVal (c : Char) : Option ℕ :=
  if c.isDigit then some (c.toNat - 48) else none

def digitsVal : List Char → Option ℕ
  | [] => some 0
  | c :: cs => do
      let d ← digitVal c
      let r ← digitsVal cs
      pure (d * 10 ^ cs.length + r)

-- Decimal literal accepted by pd.to_numeric: an optional sign, then digits
-- with at most one decimal point and at least one digit.  (Exponent
-- notation and the textual inf/nan forms, which pd.to_numeric also
-- accepts, are not modelled; no claim depends on such cells.)
def parseUnsigned (cs : List Char) : Option ℚ :=
  let ip := cs.takeWhile (fun c => !(c == '.'))
  match cs.dropWhile (fun c => !(c == '.')) with
  | [] =>
      if ip.isEmpty then none
      else (digitsVal ip).map (fun n => (n : ℚ))
  | _ :: fp =>
      if fp.contains '.' then none
      else if ip.isEmpty && fp.isEmpty then none
      else do
        let iv ← digitsVal ip
        let fv ← digitsVal fp
        pure (((iv : ℚ) * 10 ^ fp.length + (fv : ℚ)) / 10 ^ fp.length)

def parseSigned : List Char → Option ℚ
  | [] => none
  | c :: rest =>
      if c == '-' then (parseUnsigned rest).map (fun q => -q)
      else if c == '+' then parseUnsigned rest
      else parseUnsigned (c :: rest)

-- Numeric coercion of one cell (src/app.py lines 55-58):
-- astype(str) -> strip(" '") -> replace(',', '.') -> to_numeric(coerce).
-- Total by construction: an uncoercible cell becomes none (pandas NaN),
-- never an exception.
def coerceCell (s : String) : Option ℚ :=
  parseSigned ((commaToDot (stripStray s)).toList)

-- A parsed delimited file: header row plus data rows, cells positional.
inductive RawFile where
  | missing : RawFile
  | malformed : RawFile
  | parsed (header : List String) (rows : List (List String)) : RawFile

-- An uncaught Python exception escaping load_data.
inductive PyExc where
  | keyError : PyExc
deriving DecidableEq

instance {ε α : Type} [DecidableEq ε] [DecidableEq α] : DecidableEq (Except ε α) := fun a b =>
  match a, b with
  | Except.error e, Except.error f =>
      if h : e = f then isTrue (by rw [h])
      else isFalse (by intro hh; cases hh; exact h rfl)
  | Except.error _, Except.ok _ => isFalse (by intro hh; cases hh)
  | Except.ok _, Except.error _ => isFalse (by intro hh; cases hh)
  | Except.ok x, Except.ok y =>
      if h : x = y then isTrue (by rw [h])
      else isFalse (by intro hh; cases hh; exact h rfl)

-- One fully-populated record of a cleaned Dataset.
structure Station where
  lat : ℚ
  lon : ℚ
  moyenne : ℚ
  excep : ℚ
deriving DecidableEq

-- Cell of a row under a named column (pandas column access; none when the
-- row is too short, i.e. a NaN cell).
def getCell (header row : List String) (col : String) : Option String :=
  (header.findIdx? (fun h => h == col)).bind (fun i => row.get? i)

def rowValue (header row : List String) (col : String) : Option ℚ :=
  (getCell header row col).bind coerceCell

-- A row survives dropna exactly when all four required values coerced.
def toStation (header row : List String) : Option Station :=
  match rowValue header row COL_LAT, rowValue header row COL_LON,
        rowValue header row COL_PLUVIO_MOYENNE, rowValue header row COL_PLUVIO_EXCEP with
  | some la, some lo, some mo, some ex => some (Station.mk la lo mo ex)
  | _, _, _, _ => none

-- load_data (src/app.py lines 34-62).  A missing file returns None (line
-- 39); a file read_csv cannot parse returns None (lines 47-48); otherwise
-- the tracked columns are coerced and dropna(subset=requiredCols) is
-- applied.  dropna raises KeyError when a subset column is absent from the
-- frame (the `if col in df.columns` guard of line 53 protects only the
-- coercion loop, not dropna).
def load_data (f : RawFile) : Except PyExc (Option (List Station)) :=
  match f with
  | RawFile.missing => Except.ok none
  | RawFile.malformed => Except.ok none
  | RawFile.parsed header rows =>
      if ∀ c ∈ requiredCols, c ∈ header then
        Except.ok (some (rows.filterMap (toStation header)))
      else
        Except.error PyExc.keyError

-- ---------------------------------------------------------------------------
-- Interpolator (src/app.py lines 65-88, get_interpolated_values).
-- ---------------------------------------------------------------------------

def coords (s : Station) : ℚ × ℚ := (s.lat, s.lon)

-- Twice the signed area of triangle (a, b, c).
def triDet (a b c : ℚ × ℚ) : ℚ :=
  (b.1 - a.1) * (c.2 - a.2) - (b.2 - a.2) * (c.1 - a.1)

-- Membership of p in the closed triangle (a, b, c): the three edge
-- orientation tests agree in sign.
def InTri (p a b c : ℚ × ℚ) : Prop :=
  (0 ≤ triDet a b p ∧ 0 ≤ triDet b c p ∧ 0 ≤ triDet c a p) ∨
  (triDet a b p ≤ 0 ∧ triDet b c p ≤ 0 ∧ triDet c a p ≤ 0)

instance (p a b c : ℚ × ℚ) : Decidable (InTri p a b c) := by
  unfold InTri; infer_instance

-- A non-degenerate triangle of the dataset containing p.
def GoodTri (p a b c : ℚ × ℚ) : Prop :=
  triDet a b c ≠ 0 ∧ InTri p a b c

instance (p a b c : ℚ × ℚ) : Decidable (GoodTri p a b c) := by
  unfold GoodTri; infer_instance

def triples {α : Type} (l : List α) : List (α × α × α) :=
  l.flatMap (fun a => l.flatMap (fun b => l.map (fun c => (a, b, c))))

-- Delaunay triangulation feasibility: qhull succeeds exactly when the
-- input contains three non-collinear points; otherwise griddata raises
-- QhullError (caught by the bare except of src/app.py line 87).
def canTri (ds : List Station) : Prop :=
  ∃ t ∈ triples ds, triDet (coords t.1) (coords t.2.1) (coords t.2.2) ≠ 0

instance (ds : List Station) : Decidable (canTri ds) := by
  unfold canTri; infer_instance

-- Membership of (x, y) in the region covered by the triangulation: some
-- non-degenerate triangle over the station coordinates contains it.  Given
-- canTri, this region is exactly the closed convex hull of the station
-- coordinates (Caratheodory), so its complement is the set of points
-- strictly outside the hull.
def inHull (ds : List Station) (x y : ℚ) : Prop :=
  ∃ t ∈ triples ds, GoodTri (x, y) (coords t.1) (coords t.2.1) (coords t.2.2)

instance (ds : List Station) (x y : ℚ) : Decidable (inHull ds x y) := by
  unfold inHull; infer_instance

-- Barycentric interpolation of the values (va, vb, vc) at the vertices of
-- triangle (a, b, c), evaluated at p.
def bary (p a b c : ℚ × ℚ) (va vb vc : ℚ) : ℚ :=
  (triDet p b c * va + triDet a p c * vb + triDet a b p * vc) / triDet a b c

-- One griddata(method='linear') evaluation for one value column f, at a
-- query point whose coordinates are finite (some) or non-finite (none:
-- NaN or infinite latitude/longitude, for which every vertex-equality and
-- triangle-membership test of the float code is false).
def interpOne (ds : List Station) (f : Station → ℚ) (qlat qlon : Option ℚ) : Option ℚ :=
  match qlat, qlon with
  | some x, some y =>
      match ds.find? (fun s => decide (coords s = (x, y))) with
      | some s => some (f s)
      | none =>
          match (triples ds).find?
              (fun t => decide (GoodTri (x, y) (coords t.1) (coords t.2.1) (coords t.2.2))) with
          | some t => some (bary (x, y) (coords t.1) (coords t.2.1) (coords t.2.2)
                              (f t.1) (f t.2.1) (f t.2.2))
          | none => none
  | _, _ => none

-- The dict built at src/app.py line 85; a none field is a NaN entry.
structure InterpResult where
  moyenne : Option ℚ
  exceptionnelle : Option ℚ
deriving DecidableEq

-- get_interpolated_values (src/app.py lines 65-88): None for a missing or
-- empty frame (line 67); None when griddata raises (QhullError on a
-- degenerate point set, caught at line 87); otherwise the two-key dict.
def get_interpolated_values (df : Option (List Station)) (qlat qlon : Option ℚ) :
    Option InterpResult :=
  match df with
  | none => none
  | some ds =>
      if ds = [] then none
      else if canTri ds then
        some (InterpResult.mk (interpOne ds Station.moyenne qlat qlon)
                              (interpOne ds Station.excep qlat qlon))
      else none

-- ---------------------------------------------------------------------------
-- Per-horizon result classification in main (src/app.py lines 240-261).
-- ---------------------------------------------------------------------------

inductive Display where
  | fileNotFound : Display
  | calcError : Display
  | outOfZone : Display
  | success (m : ℚ) (e : Option ℚ) : Display
deriving DecidableEq

-- main: df None -> "Fichier introuvable"; data falsy -> "Erreur de
-- calcul."; np.isnan(data['moyenne']) -> "Extrapolation impossible (hors
-- zone)."; otherwise both values are displayed.
def classify (df : Option (List Station)) (qlat qlon : Option ℚ) : Display :=
  match df with
  | none => Display.fileNotFound
  | some ds =>
      match get_interpolated_values (some ds) qlat qlon with
      | none => Display.calcError
      | some r =>
          match r.moyenne with
          | none => Display.outOfZone
          | some m => Display.success m r.exceptionnelle

-- ---------------------------------------------------------------------------
-- plot_evolution annotation logic (src/app.py lines 91-130).
-- ---------------------------------------------------------------------------

structure PlotDatum where
  year : ℤ
  value : ℚ
deriving DecidableEq

def insertYear (d : PlotDatum) : List PlotDatum → List PlotDatum
  | [] => [d]
  | e :: es => if d.year < e.year then d :: e :: es else e :: insertYear d es

-- data_list.sort(key=lambda x: x['year']) (line 96).
def sortByYear (l : List PlotDatum) : List PlotDatum := l.foldr insertYear []

-- ref_value = values[0] if len(values) > 0 else 1 (line 101).
def refValue (l : List PlotDatum) : ℚ :=
  match sortByYear l with
  | [] => 1
  | d :: _ => d.value

inductive PlotLabel where
  | refMark (y : ℚ) : PlotLabel
  | pctMark (y : ℚ) (pct : ℚ) : PlotLabel
deriving DecidableEq

-- The annotation of one point (lines 116-130): the 2020 point is labelled
-- as the reference; every other point gets a numeric percentage, with
-- pct = 0 substituted when ref_value == 0 (lines 121-124).
def labelOf (ref : ℚ) (d : PlotDatum) : PlotLabel :=
  if d.year = 2020 then PlotLabel.refMark d.value
  else PlotLabel.pctMark d.value (if ref ≠ 0 then (d.value - ref) / ref * 100 else 0)

def plotLabels (l : List PlotDatum) : List PlotLabel :=
  (sortByYear l).map (labelOf (refValue l))

-- ---------------------------------------------------------------------------
-- Sample data used by witnesses and counterexamples.
-- ---------------------------------------------------------------------------

-- Three non-collinear stations with pairwise distinct coordinates.
def sampleDS : List Station :=
  [Station.mk 0 0 10 20, Station.mk 1 0 30 40, Station.mk 0 1 50 60]

-- Sample dataset with two stations sharing coordinates (0, 0) but carrying
-- different metric values.
def dupDS : List Station :=
  [Station.mk 0 0 1 1, Station.mk 1 0 2 2, Station.mk 0 1 3 3, Station.mk 0 0 99 99]

def sampleHeader : List String := [COL_LAT, COL_LON, COL_PLUVIO_MOYENNE, COL_PLUVIO_EXCEP]

-- ===========================================================================
-- Helper lemmas.
-- ===========================================================================

theorem mem_triples {α : Type} {l : List α} {a b c : α} :
    (a, b, c) ∈ triples l ↔ a ∈ l ∧ b ∈ l ∧ c ∈ l := by
  simp only [triples, List.mem_flatMap, List.mem_map, Prod.mk.injEq]
  constructor
  · rintro ⟨a', ha', b', hb', c', hc', rfl, rfl, rfl⟩
    exact ⟨ha', hb', hc'⟩
  · rintro ⟨ha, hb, hc⟩
    exact ⟨a, ha, b, hb, c, hc, rfl, rfl, rfl⟩

theorem triDet_aab (a b : ℚ × ℚ) : triDet a a b = 0 := by
  simp only [triDet]; ring

theorem triDet_aba (a b : ℚ × ℚ) : triDet a b a = 0 := by
  simp only [triDet]; ring

theorem triDet_abb (a b : ℚ × ℚ) : triDet a b b = 0 := by
  simp only [triDet]; ring

-- Signed-area partition of a triangle by an arbitrary point.
theorem triDet_split (p a b c : ℚ × ℚ) :
    triDet a b c = triDet p b c + triDet p c a + triDet p a b := by
  simp only [triDet]; ring

-- A station coordinate lies in the covered region whenever a triangulation
-- exists: either some non-degenerate triangle hangs off the station itself,
-- or all segments through it are collinear, contradicting canTri via the
-- area-partition identity.
theorem inHull_of_mem {ds : List Station} {s : Station} {x y : ℚ}
    (hT : canTri ds) (hs : s ∈ ds) (hc : coords s = (x, y)) : inHull ds x y := by
  by_cases h : ∃ u ∈ ds, ∃ v ∈ ds, triDet (x, y) (coords u) (coords v) ≠ 0
  · obtain ⟨u, hu, v, hv, hne⟩ := h
    refine ⟨(s, u, v), mem_triples.mpr ⟨hs, hu, hv⟩, ?_, ?_⟩
    · rw [hc]; exact hne
    · rw [hc]
      rcases le_total 0 (triDet (coords u) (coords v) (x, y)) with ht | ht
      · exact Or.inl ⟨le_of_eq (triDet_aba _ _).symm, ht, le_of_eq (triDet_abb _ _).symm⟩
      · exact Or.inr ⟨le_of_eq (triDet_aba _ _), ht, le_of_eq (triDet_abb _ _)⟩
  · exfalso
    push_neg at h
    obtain ⟨⟨a, b, c⟩, hm, hd⟩ := hT
    rw [mem_triples] at hm
    obtain ⟨ha, hb, hcc⟩ := hm
    apply hd
    rw [triDet_split (x, y)]
    rw [h b hb c hcc, h c hcc a ha, h a ha b hb]
    ring

-- Degenerate point sets admit no triangulation.
theorem not_canTri_of_degenerate (ds : List Station)
    (h : ds.length < 3 ∨ ∀ u ∈ ds, ∀ v ∈ ds, ∀ w ∈ ds,
        triDet (coords u) (coords v) (coords w) = 0) :
    ¬ canTri ds := by
  rintro ⟨⟨a, b, c⟩, hm, hd⟩
  rw [mem_triples] at hm
  obtain ⟨ha, hb, hc⟩ := hm
  rcases h with hlen | hcol
  · have hdup : a = b ∨ a = c ∨ b = c := by
      rcases ds with _ | ⟨x, _ | ⟨y, _ | ⟨z, tl⟩⟩⟩
      · cases ha
      · simp only [List.mem_singleton] at ha hb
        left; rw [ha, hb]
      · simp only [List.mem_cons, List.not_mem_nil, or_false] at ha hb hc
        rcases ha with rfl | rfl <;> rcases hb with rfl | rfl <;> rcases hc with rfl | rfl <;> simp
      · simp only [List.length_cons] at hlen; omega
    rcases hdup with h1 | h1 | h1
    · rw [h1] at hd; exact hd (triDet_aab _ _)
    · rw [h1] at hd; exact hd (triDet_aba _ _)
    · rw [h1] at hd; exact hd (triDet_abb _ _)
  · exact hd (hcol a ha b hb c hc)

-- Both metric columns share the vertex test and the triangle search, so
-- one interpolation result is numeric exactly when the other is.
theorem interpOne_isSome_eq (ds : List Station) (f g : Station → ℚ) (qlat qlon : Option ℚ) :
    (interpOne ds f qlat qlon).isSome = (interpOne ds g qlat qlon).isSome := by
  cases qlat with
  | none => rfl
  | some x =>
      cases qlon with
      | none => rfl
      | some y =>
          simp only [interpOne]
          cases hf : ds.find? (fun s => decide (coords s = (x, y))) with
          | some s => rfl
          | none =>
              cases ht : (triples ds).find?
                  (fun t => decide (GoodTri (x, y) (coords t.1) (coords t.2.1) (coords t.2.2))) with
              | some t => rfl
              | none => rfl

-- Stations of a coordinate-distinct list are determined by coordinates.
theorem pairwise_coords_eq {ds : List Station}
    (h : ds.Pairwise (fun a b => coords a ≠ coords b)) {s t : Station}
    (hs : s ∈ ds) (ht : t ∈ ds) (hc : coords s = coords t) : s = t := by
  induction ds with
  | nil => cases hs
  | cons a l ih =>
      rcases List.pairwise_cons.mp h with ⟨hhead, htail⟩
      rcases List.mem_cons.mp hs with rfl | hs' <;> rcases List.mem_cons.mp ht with rfl | ht'
      · rfl
      · exact absurd hc (hhead _ ht')
      · exact absurd hc.symm (hhead _ hs')
      · exact ih htail hs' ht'

-- Interpolation evaluated at a station coordinate returns that station's
-- value when no other station shares the coordinate.
theorem interpOne_at_vertex (ds : List Station) (f : Station → ℚ) (st : Station)
    (hst : st ∈ ds) (hdist : ds.Pairwise (fun a b => coords a ≠ coords b)) :
    interpOne ds f (some st.lat) (some st.lon) = some (f st) := by
  have hsome : (ds.find? (fun s => decide (coords s = (st.lat, st.lon)))).isSome :=
    List.find?_isSome.mpr ⟨st, hst, by simp [coords]⟩
  obtain ⟨s, hs⟩ := Option.isSome_iff_exists.mp hsome
  have hps := List.find?_some hs
  simp only [decide_eq_true_eq] at hps
  have hmem : s ∈ ds := List.mem_of_find?_eq_some hs
  have hseq : s = st := pairwise_coords_eq hdist hmem hst (by simp [coords] at hps ⊢; exact hps)
  rw [hseq] at hs
  simp only [interpOne, hs]

theorem mem_insertYear {d a : PlotDatum} {l : List PlotDatum} :
    a ∈ insertYear d l ↔ a = d ∨ a ∈ l := by
  induction l with
  | nil => simp [insertYear]
  | cons e es ih =>
      simp only [insertYear]
      by_cases h : d.year < e.year
      · rw [if_pos h]
        simp [List.mem_cons]
      · rw [if_neg h]
        simp only [List.mem_cons, ih]
        tauto

theorem mem_sortByYear {a : PlotDatum} {l : List PlotDatum} (h : a ∈ l) :
    a ∈ sortByYear l := by
  induction l with
  | nil => cases h
  | cons e es ih =>
      show a ∈ insertYear e (sortByYear es)
      rcases List.mem_cons.mp h with rfl | h'
      · exact mem_insertYear.mpr (Or.inl rfl)
      · exact mem_insertYear.mpr (Or.inr (ih h'))

-- Survivors of a filterMap, lifted by some, form a sublist of the mapped
-- list: the original row order is preserved.
theorem filterMap_map_sublist {α β : Type} (f : α → Option β) (l : List α) :
    ((l.filterMap f).map some).Sublist (l.map f) := by
  induction l with
  | nil => simp
  | cons a l ih =>
      cases h : f a with
      | none =>
          rw [List.map_cons, h, List.filterMap_cons_none h]
          exact List.Sublist.cons _ ih
      | some b =>
          rw [List.map_cons, h, List.filterMap_cons_some h, List.map_cons]
          exact List.Sublist.cons₂ _ ih

-- A raw row passes the dropna filter exactly when every required column
-- holds a coercible value.
theorem toStation_isSome_iff (header row : List String) :
    (toStation header row).isSome ↔ ∀ c ∈ requiredCols, (rowValue header row c).isSome := by
  cases h1 : rowValue header row COL_LAT <;> cases h2 : rowValue header row COL_LON <;>
    cases h3 : rowValue header row COL_PLUVIO_MOYENNE <;>
    cases h4 : rowValue header row COL_PLUVIO_EXCEP <;>
    simp [toStation, requiredCols, h1, h2, h3, h4]

-- Batteries marks the rational-number operations irreducible; concrete
-- evaluations below reduce them by decidability.
unseal Rat.add Rat.sub Rat.mul Rat.inv Rat.ofScientific

-- ===========================================================================
-- Claims.
-- ===========================================================================

/-- C1: for every dataset whose station coordinates admit a triangulation
and every query point strictly outside the convex hull of those
coordinates (no non-degenerate triangle over the station coordinates
contains it), get_interpolated_values returns the NaN marker for both
metrics — an OutOfCoverage result, never an extrapolated numeric value —
and main reports the out-of-zone message. -/
theorem claim_C1 (ds : List Station) (x y : ℚ) (hT : canTri ds) (hout : ¬ inHull ds x y) :
    get_interpolated_values (some ds) (some x) (some y) = some (InterpResult.mk none none) ∧
    classify (some ds) (some x) (some y) = Display.outOfZone := by
  have hne : ds ≠ [] := by
    obtain ⟨⟨a, b, c⟩, hm, _⟩ := hT
    rw [mem_triples] at hm
    exact List.ne_nil_of_mem hm.1
  have hfind : ds.find? (fun s => decide (coords s = (x, y))) = none := by
    rw [List.find?_eq_none]
    intro s hs hdec
    exact hout (inHull_of_mem hT hs (of_decide_eq_true hdec))
  have htri : (triples ds).find?
      (fun t => decide (GoodTri (x, y) (coords t.1) (coords t.2.1) (coords t.2.2))) = none := by
    rw [List.find?_eq_none]
    intro t ht hdec
    exact hout ⟨t, ht, of_decide_eq_true hdec⟩
  have hval : get_interpolated_values (some ds) (some x) (some y) =
      some (InterpResult.mk none none) := by
    simp only [get_interpolated_values, if_neg hne, if_pos hT, interpOne, hfind, htri]
  exact ⟨hval, by simp only [classify, hval]⟩

/-- C1 witness: the triangle dataset sampleDS with query (5, 5), outside
its hull. -/
theorem claim_C1_witness :
    get_interpolated_values (some sampleDS) (some 5) (some 5) =
      some (InterpResult.mk none none) ∧
    classify (some sampleDS) (some 5) (some 5) = Display.outOfZone :=
  claim_C1 sampleDS 5 5 (by decide) (by decide)

/-- C2 counterexample: for the empty dataset the code does not produce an
OutOfCoverage result; get_interpolated_values returns None and main
reports the calculation-error message, refuting the claim that no error is
reported. -/
theorem claim_C2_counterexample :
    get_interpolated_values (some ([] : List Station)) (some 0) (some 0) = none ∧
    classify (some ([] : List Station)) (some 0) (some 0) = Display.calcError ∧
    Display.calcError ≠ Display.outOfZone := by
  refine ⟨rfl, rfl, by decide⟩

/-- C2 amended: for every dataset with fewer than 3 points or with all
points collinear (hence in particular the empty dataset) and every query
point, get_interpolated_values returns None — which the caller reports as
a calculation error, not as OutOfCoverage. -/
theorem claim_C2_amended (ds : List Station) (qlat qlon : Option ℚ)
    (hdeg : ds.length < 3 ∨ ∀ u ∈ ds, ∀ v ∈ ds, ∀ w ∈ ds,
        triDet (coords u) (coords v) (coords w) = 0) :
    get_interpolated_values (some ds) qlat qlon = none ∧
    classify (some ds) qlat qlon = Display.calcError := by
  have hnc := not_canTri_of_degenerate ds hdeg
  have hval : get_interpolated_values (some ds) qlat qlon = none := by
    by_cases hds : ds = []
    · subst hds; rfl
    · simp only [get_interpolated_values, if_neg hds, if_neg hnc]
  exact ⟨hval, by simp only [classify, hval]⟩

/-- C2 witness: three collinear stations; every query is an error, shown
at query (1, 0). -/
theorem claim_C2_witness :
    get_interpolated_values
      (some [Station.mk 0 0 1 1, Station.mk 1 0 2 2, Station.mk 2 0 3 3])
      (some 1) (some 0) = none ∧
    classify (some [Station.mk 0 0 1 1, Station.mk 1 0 2 2, Station.mk 2 0 3 3])
      (some 1) (some 0) = Display.calcError :=
  claim_C2_amended _ (some 1) (some 0) (Or.inr (by decide))

/-- C3: the loader's numeric coercion is total (it yields a value or the
missing marker, by the type of coerceCell); the cell "12,5" and the
space-padded quoted cell both coerce to 12.5, the cell "abc" coerces to
missing, and a load containing such a cell drops only that row while the
load succeeds with the remaining rows in order. -/
theorem claim_C3 :
    coerceCell ("12,5") = some (25/2) ∧
    coerceCell (" '12,5") = some (25/2) ∧
    coerceCell ("abc") = none ∧
    load_data (RawFile.parsed sampleHeader
        [["43,0", "1,0", "12,5", "20,0"],
         ["44,0", "1,5", "abc", "21,0"],
         ["45,0", "2,0", " '13,0", "22,0"]]) =
      Except.ok (some [Station.mk 43 1 (25/2) 20, Station.mk 45 2 13 22]) := by
  refine ⟨by decide, by decide, by decide, by decide⟩

/-- C4 counterexample: with baseline value exactly 0 the non-baseline
point is annotated with the computed number 0 percent — not with an
undefined marker — refuting the claim that a zero baseline yields
Undefined. -/
theorem claim_C4_counterexample :
    refValue [PlotDatum.mk 2020 0, PlotDatum.mk 2030 120] = 0 ∧
    plotLabels [PlotDatum.mk 2020 0, PlotDatum.mk 2030 120] =
      [PlotLabel.refMark 0, PlotLabel.pctMark 120 0] := by
  refine ⟨by decide, by decide⟩

/-- C4 amended: every non-baseline point of the plotted series is
annotated with the numeric delta (value - ref) / ref * 100 relative to
the reference value (the chronologically first value) when that reference
is nonzero, and with the computed number 0 — not an undefined marker —
when the reference value is exactly 0. -/
theorem claim_C4_amended (l : List PlotDatum) (d : PlotDatum)
    (hd : d ∈ l) (hy : d.year ≠ 2020) :
    (refValue l ≠ 0 →
      PlotLabel.pctMark d.value ((d.value - refValue l) / refValue l * 100) ∈ plotLabels l) ∧
    (refValue l = 0 → PlotLabel.pctMark d.value 0 ∈ plotLabels l) := by
  constructor
  · intro href
    have hlab : labelOf (refValue l) d =
        PlotLabel.pctMark d.value ((d.value - refValue l) / refValue l * 100) := by
      simp only [labelOf, if_neg hy, if_pos href]
    rw [plotLabels, ← hlab]
    exact List.mem_map_of_mem _ (mem_sortByYear hd)
  · intro href
    have hlab : labelOf (refValue l) d = PlotLabel.pctMark d.value 0 := by
      simp only [labelOf, if_neg hy]
      rw [if_neg (by simp [href])]
    rw [plotLabels, ← hlab]
    exact List.mem_map_of_mem _ (mem_sortByYear hd)

/-- C4 witness: baseline 100 at 2020 and value 120 at 2030 give the delta
(120 - 100) / 100 * 100 = 20 percent. -/
theorem claim_C4_witness :
    PlotLabel.pctMark 120 20 ∈
      plotLabels [PlotDatum.mk 2020 100, PlotDatum.mk 2030 120] :=
  (claim_C4_amended [PlotDatum.mk 2020 100, PlotDatum.mk 2030 120]
    (PlotDatum.mk 2030 120) (by decide) (by decide)).1 (by decide)

/-- C5 counterexample: a missing source and an unparseable source produce
the very same return value, so the two failure kinds are not
distinguishable by the caller, refuting the claimed NotFound/Malformed
distinction. -/
theorem claim_C5_counterexample :
    load_data RawFile.missing = load_data RawFile.malformed := rfl

/-- C5 amended: load_data returns None (a returned value, not an uncaught
exception) both when the source file does not exist and when the file
cannot be parsed as delimited text; the two failure kinds are collapsed
into the same value. -/
theorem claim_C5_amended :
    load_data RawFile.missing = Except.ok none ∧
    load_data RawFile.malformed = Except.ok none := ⟨rfl, rfl⟩

/-- C6: when all required columns are present, load succeeds and the
resulting dataset keeps exactly the rows whose required cells all coerce
(such rows enter as fully-populated records), drops every row with a
missing or unparseable required value, and preserves the original row
order (the survivor list, lifted by some, is a sublist of the coerced
rows). -/
theorem claim_C6 (header : List String) (rows : List (List String))
    (hcols : ∀ c ∈ requiredCols, c ∈ header) :
    ∃ recs, load_data (RawFile.parsed header rows) = Except.ok (some recs) ∧
      ((recs.map some).Sublist (rows.map (toStation header))) ∧
      (∀ row ∈ rows, (∀ c ∈ requiredCols, (rowValue header row c).isSome) →
        ∃ st, toStation header row = some st ∧ st ∈ recs) ∧
      (∀ row ∈ rows, (¬ ∀ c ∈ requiredCols, (rowValue header row c).isSome) →
        toStation header row = none) := by
  refine ⟨rows.filterMap (toStation header), ?_, filterMap_map_sublist _ _, ?_, ?_⟩
  · simp only [load_data, if_pos hcols]
  · intro row hrow hall
    obtain ⟨st, hst⟩ := Option.isSome_iff_exists.mp ((toStation_isSome_iff _ _).mpr hall)
    exact ⟨st, hst, List.mem_filterMap.mpr ⟨row, hrow, hst⟩⟩
  · intro row hrow hnall
    cases hst : toStation header row with
    | none => rfl
    | some st =>
        exact absurd ((toStation_isSome_iff _ _).mp (by simp [hst])) hnall

/-- C6 witness: a concrete load with one uncoercible cell keeps the two
good rows in order and drops the bad one. -/
theorem claim_C6_witness :
    ∃ recs, load_data (RawFile.parsed sampleHeader
        [["43,0", "1,0", "12,5", "20,0"],
         ["44,0", "1,5", "abc", "21,0"]]) = Except.ok (some recs) ∧
      ((recs.map some).Sublist
        ([["43,0", "1,0", "12,5", "20,0"],
          ["44,0", "1,5", "abc", "21,0"]].map (toStation sampleHeader))) ∧
      (∀ row ∈ [["43,0", "1,0", "12,5", "20,0"], ["44,0", "1,5", "abc", "21,0"]],
        (∀ c ∈ requiredCols, (rowValue sampleHeader row c).isSome) →
        ∃ st, toStation sampleHeader row = some st ∧ st ∈ recs) ∧
      (∀ row ∈ [["43,0", "1,0", "12,5", "20,0"], ["44,0", "1,5", "abc", "21,0"]],
        (¬ ∀ c ∈ requiredCols, (rowValue sampleHeader row c).isSome) →
        toStation sampleHeader row = none) :=
  claim_C6 sampleHeader _ (by decide)

/-- C7 counterexample: dupDS holds two stations at coordinates (0, 0) with
different metric values (1 versus 99); interpolating at (0, 0) returns the
first station's values, so it does not return "that station's" values for
the later duplicate, refuting the claim for datasets with duplicated
coordinates (which the Dataset invariant explicitly allows). -/
theorem claim_C7_counterexample :
    Station.mk 0 0 99 99 ∈ dupDS ∧
    get_interpolated_values (some dupDS) (some 0) (some 0) =
      some (InterpResult.mk (some 1) (some 1)) ∧
    (1 : ℚ) ≠ 99 := by
  refine ⟨by decide, by decide, by decide⟩

/-- C7 amended: for every dataset with at least 3 non-collinear points
whose station coordinates are pairwise distinct, interpolating at a
query point equal to one of the station coordinates returns exactly that
station's metric values for both metrics. -/
theorem claim_C7_amended (ds : List Station) (st : Station) (hst : st ∈ ds)
    (hdist : ds.Pairwise (fun a b => coords a ≠ coords b)) (hT : canTri ds) :
    get_interpolated_values (some ds) (some st.lat) (some st.lon) =
      some (InterpResult.mk (some st.moyenne) (some st.excep)) := by
  have hne : ds ≠ [] := List.ne_nil_of_mem hst
  simp only [get_interpolated_values, if_neg hne, if_pos hT,
    interpOne_at_vertex ds Station.moyenne st hst hdist,
    interpOne_at_vertex ds Station.excep st hst hdist]

/-- C7 witness: querying sampleDS at station (1, 0) returns its values
(30, 40). -/
theorem claim_C7_witness :
    get_interpolated_values (some sampleDS) (some 1) (some 0) =
      some (InterpResult.mk (some 30) (some 40)) :=
  claim_C7_amended sampleDS (Station.mk 1 0 30 40) (by decide) (by decide) (by decide)

/-- C8 counterexample: on a triangulable dataset, a query with non-finite
latitude does not fail with a distinguished invalid-query error: the code
returns a normal OutOfCoverage result (the NaN pair), refuting the claimed
InterpolationError::InvalidQuery behaviour. -/
theorem claim_C8_counterexample :
    get_interpolated_values (some sampleDS) none (some 0) =
      some (InterpResult.mk none none) ∧
    get_interpolated_values (some sampleDS) none (some 0) ≠ none := by
  refine ⟨by decide, by decide⟩

/-- C8 amended: on a triangulable dataset get_interpolated_values never
fails: for every query (finite or not) it returns a result dict, and a
query with a non-finite latitude or longitude yields the OutOfCoverage
marker for both metrics rather than an error. -/
theorem claim_C8_amended (ds : List Station) (qlat qlon : Option ℚ) (hT : canTri ds) :
    (get_interpolated_values (some ds) qlat qlon).isSome ∧
    ((qlat = none ∨ qlon = none) →
      get_interpolated_values (some ds) qlat qlon = some (InterpResult.mk none none)) := by
  have hne : ds ≠ [] := by
    obtain ⟨⟨a, b, c⟩, hm, _⟩ := hT
    rw [mem_triples] at hm
    exact List.ne_nil_of_mem hm.1
  constructor
  · simp only [get_interpolated_values, if_neg hne, if_pos hT, Option.isSome_some]
  · intro hq
    have hm : interpOne ds Station.moyenne qlat qlon = none := by
      rcases hq with rfl | rfl
      · rfl
      · cases qlat <;> rfl
    have he : interpOne ds Station.excep qlat qlon = none := by
      rcases hq with rfl | rfl
      · rfl
      · cases qlat <;> rfl
    simp only [get_interpolated_values, if_neg hne, if_pos hT, hm, he]

/-- C8 witness: the NaN-latitude query on sampleDS produces the
OutOfCoverage pair. -/
theorem claim_C8_witness :
    get_interpolated_values (some sampleDS) none (some 0) =
      some (InterpResult.mk none none) :=
  (claim_C8_amended sampleDS none (some 0) (by decide)).2 (Or.inl rfl)

/-- C9: if the source parses as delimited text but its header lacks any of
the four required columns, load_data ends in an uncaught exception (the
KeyError raised by dropna on a missing subset column) instead of returning
an error value or a dataset. -/
theorem claim_C9 (header : List String) (rows : List (List String))
    (hmiss : ¬ ∀ c ∈ requiredCols, c ∈ header) :
    load_data (RawFile.parsed header rows) = Except.error PyExc.keyError := by
  simp only [load_data, if_neg hmiss]

/-- C9 witness: a header missing the exceptional-rainfall column makes the
load raise. -/
theorem claim_C9_witness :
    load_data (RawFile.parsed [COL_LAT, COL_LON, COL_PLUVIO_MOYENNE] [["1", "2", "3"]]) =
      Except.error PyExc.keyError :=
  claim_C9 [COL_LAT, COL_LON, COL_PLUVIO_MOYENNE] [["1", "2", "3"]] (by decide)

/-- C10: for every dataset and every query point get_interpolated_values
is total (it is a function into Option, never an exception) and returns
either None or a mapping with exactly the two metric fields, produced
all-or-nothing: one field is numeric exactly when the other is. -/
theorem claim_C10 (df : Option (List Station)) (qlat qlon : Option ℚ) :
    get_interpolated_values df qlat qlon = none ∨
    ∃ r, get_interpolated_values df qlat qlon = some r ∧
      (r.moyenne.isSome ↔ r.exceptionnelle.isSome) := by
  cases df with
  | none => exact Or.inl rfl
  | some ds =>
      by_cases hds : ds = []
      · subst hds; exact Or.inl rfl
      · by_cases hT : canTri ds
        · refine Or.inr ⟨InterpResult.mk (interpOne ds Station.moyenne qlat qlon)
            (interpOne ds Station.excep qlat qlon), ?_, ?_⟩
          · simp only [get_interpolated_values, if_neg hds, if_pos hT]
          · rw [interpOne_isSome_eq ds Station.moyenne Station.excep qlat qlon]
        · exact Or.inl (by simp only [get_interpolated_values, if_neg hds, if_neg hT])
